import Mathlib

/-!
Shallow embedding of the conversation-session logic of the chatbot-support
repository, centred on the advanced ChatContainer component
(src/unnamed/part_001: ChatContainer.tsx, function handleSendMessage,
lines 58-183) together with the submission guards of its ChatInput component
(handleSubmit) and, for the widget frontend, the early-return guard of
ChatWidget.handleSendMessage (src/unnamed/part_003, lines 69-98).

Messages are modelled by their content and role; the id and timestamp fields of
the source are presentation metadata (Date.now strings) that no verified
property depends on, so they are not carried.  Asynchrony is modelled by the
JavaScript event-loop ordering actually guaranteed by the source: synchronous
setMessages appends happen in program order, and the two setTimeout callbacks
(1000 ms calendar confirmation, 1500 ms handoff announcement) fire after the
synchronous code of the turn and in increasing order of their delays.
-/

/- ### JavaScript string primitives, re-implemented over character lists
so that every definition reduces inside the kernel. -/

/-- Character-list core of String.prototype.trim: drop whitespace at both ends. -/
def trimAux (l : List Char) : List Char :=
  ((l.dropWhile Char.isWhitespace).reverse.dropWhile Char.isWhitespace).reverse

/-- JavaScript String.prototype.trim. -/
def jsTrim (s : String) : String := String.mk (trimAux s.data)

/-- JavaScript String.prototype.toLowerCase (ASCII case folding suffices for
the keyword tests of the source). -/
def toLowerCase (s : String) : String := String.mk (s.data.map Char.toLower)

/-- Substring search: does the pattern p occur inside the list? -/
def strContainsAux (p : List Char) : List Char → Bool
  | [] => p.isPrefixOf []
  | c :: t => p.isPrefixOf (c :: t) || strContainsAux p t

/-- JavaScript String.prototype.includes. -/
def jsIncludes (s pat : String) : Bool := strContainsAux pat.data s.data

/-- JavaScript truthiness of an optional string field: undefined and the empty
string are falsy, every other string is truthy. -/
def jsTruthy : Option String → Bool
  | none => false
  | some s => s != ""

/-- JavaScript a || b on optional string values: keep a when truthy, else b. -/
def jsOr (a b : Option String) : Option String := if jsTruthy a then a else b

/-- JavaScript a || b where b is a plain string default (widget bot text). -/
def jsStrOr (a : Option String) (b : String) : String :=
  if jsTruthy a then a.getD "" else b

/- ### Data model of the ChatContainer session (src/unnamed/part_001) -/

/-- One chat message: content plus the user/bot role flag (MessageType,
src/unnamed/part_001 lines 5-10; id and timestamp are display metadata). -/
structure Msg where
  content : String
  isBot : Bool
deriving DecidableEq

/-- Slot store of the session (ConversationState, src/unnamed/part_001
lines 12-19).  Absent fields are none; a present empty string is some "". -/
structure ConversationState where
  expecting : Option String := none
  selectedService : Option String := none
  date : Option String := none
  time : Option String := none
  location : Option String := none
  issue : Option String := none
deriving DecidableEq

/-- Parsed JSON body of a successful responder reply (fields read by
handleSendMessage: response, action, expecting, services, date, time,
requires_human). -/
structure ChatResponse where
  response : String
  action : Option String := none
  expecting : Option String := none
  services : List String := []
  date : Option String := none
  time : Option String := none
  requires_human : Bool := false
deriving DecidableEq

/-- Environment of one turn: whether the geolocation lookup succeeds when it
is attempted, and the outcome of the single fetch to the responder.  An
error value covers a network failure, a non-2xx status (the code throws on
response.ok being false) and a JSON parse failure, all of which reach the
catch block before any state mutation. -/
structure TurnEnv where
  geoAvailable : Bool
  fetchResult : Except Unit ChatResponse

/-- Mutable state of one ChatContainer session (the useState hooks of
src/unnamed/part_001 lines 22-33). -/
structure Session where
  messages : List Msg
  isLoading : Bool
  conversationState : ConversationState
  humanOperatorMode : Bool
deriving DecidableEq

/-- Result of one submission: the new session state and the number of fetch
calls issued to the responder during it. -/
structure StepResult where
  session : Session
  fetchCalls : Nat
deriving DecidableEq

/- ### Fixed message texts of the source -/

/-- Greeting message installed at session start and on reset
(src/unnamed/part_001 lines 23-28). -/
def greetingText : String :=
  "Hello! I\x27m Kodee from Vogo.Family. How can I assist you today? 😊"

/-- Location acknowledgement appended when geolocation succeeds
(src/unnamed/part_001 lines 81-87). -/
def locationAckText : String :=
  "I\x27ve detected your location to find services near you."

/-- Fixed apologetic fallback appended on any turn failure
(src/unnamed/part_001 lines 172-179). -/
def errorText : String :=
  "Sorry, I encountered an error. Please try again later."

/-- Handoff announcement appended when the reply requires a human operator
(src/unnamed/part_001 lines 149-154). -/
def handoffText : String :=
  "I\x27m transferring you to a human operator who will assist you shortly. Thank you for your patience."

/-- Calendar confirmation text, a template over the date and time read from
the pre-merge conversation state (src/unnamed/part_001 lines 134-139). -/
def calendarText (d t : String) : String :=
  "✅ I\x27ve added your appointment to your calendar for " ++ d ++ " at " ++ t ++
    ".\n\nAn email confirmation has been sent to reservations@vogo.family."

/- ### Intent heuristics of handleSendMessage -/

/-- Location-intent heuristic that triggers the geolocation lookup
(src/unnamed/part_001 lines 71-73). -/
def locationIntent (content : String) : Bool :=
  jsIncludes (toLowerCase content) "location" ||
    jsIncludes (toLowerCase content) "near me" ||
    jsIncludes (toLowerCase content) "autoservice"

/-- Local keyword match that sets the issue slot (src/unnamed/part_001
lines 119-121). -/
def brakeIntent (content : String) : Bool :=
  jsIncludes (toLowerCase content) "break problem" ||
    jsIncludes (toLowerCase content) "brake problem"

/- ### Slot-store merge and the turn function -/

/-- Functional update passed to setConversationState on a successful turn
(src/unnamed/part_001 lines 113-122): spread of the previous state, then
expecting is assigned the raw reply field, while selectedService, date and
time fall back to the previous value when the incoming value is falsy, and
issue is set by the local keyword match or carried forward. -/
def mergeState (content : String) (prev : ConversationState)
    (data : ChatResponse) : ConversationState :=
  { prev with
    expecting := data.expecting
    selectedService := jsOr data.services.head? prev.selectedService
    date := jsOr data.date prev.date
    time := jsOr data.time prev.time
    issue := if brakeIntent content then some "brake problem" else prev.issue }

/-- The turn function handleSendMessage (src/unnamed/part_001 lines 58-183).
The user message is appended first; when the location heuristic fires and
geolocation succeeds an acknowledgement is appended before the fetch.  On a
successful fetch the slot store is merged, the calendar branch tests the
action signal against the PRE-merge closure state (both the guard and the
message template read conversationState, not the merged state), the handoff
branch tests requires_human with no check of the current operator mode, and
the primary bot message is appended synchronously, hence before the delayed
calendar (1000 ms) and handoff (1500 ms) messages.  On a failed fetch only
the fixed fallback message is appended.  Exactly one fetch is issued. -/
def handleSendMessage (env : TurnEnv) (content : String) (st : Session) :
    StepResult :=
  let msgs1 := st.messages ++ [{ content := content, isBot := false }]
  let msgs2 := if locationIntent content && env.geoAvailable then
      msgs1 ++ [{ content := locationAckText, isBot := true }]
    else msgs1
  match env.fetchResult with
  | Except.error _ =>
    { session :=
        { st with
          messages := msgs2 ++ [{ content := errorText, isBot := true }]
          isLoading := false }
      fetchCalls := 1 }
  | Except.ok data =>
    let newState := mergeState content st.conversationState data
    let calendarFires := (data.action == some "calendar_add") &&
      jsTruthy st.conversationState.date && jsTruthy st.conversationState.time
    let calendarMessage : Msg :=
      { content := calendarText (st.conversationState.date.getD "")
          (st.conversationState.time.getD "")
        isBot := true }
    let msgs3 := msgs2 ++ [{ content := data.response, isBot := true }]
    let msgs4 := if calendarFires then msgs3 ++ [calendarMessage] else msgs3
    let msgs5 := if data.requires_human then
        msgs4 ++ [{ content := handoffText, isBot := true }]
      else msgs4
    { session :=
        { messages := msgs5
          isLoading := false
          conversationState := newState
          humanOperatorMode :=
            if data.requires_human then true else st.humanOperatorMode }
      fetchCalls := 1 }

/-- Submission of free text through ChatInput.handleSubmit: the message is
forwarded, untrimmed, only when its trimmed form is truthy and no turn is
loading (the ChatInput component bundled in src/MILESTONE-2-FEATURES.md,
mirrored by the widget input src/apps/widget/src/components/ChatInput.jsx). -/
def handleSubmit (env : TurnEnv) (message : String) (st : Session) :
    StepResult :=
  if jsTrim message != "" && !st.isLoading then
    handleSendMessage env message st
  else
    { session := st, fetchCalls := 0 }

/-- Tap on a quick-reply button (src/unnamed/part_001 lines 300-309): the
button carries disabled={isLoading}, so a tap while a turn is loading does
nothing; otherwise handleQuickResponse forwards the text to
handleSendMessage unchanged. -/
def quickReplyTap (env : TurnEnv) (response : String) (st : Session) :
    StepResult :=
  if !st.isLoading then
    handleSendMessage env response st
  else
    { session := st, fetchCalls := 0 }

/-- Initial session state (src/unnamed/part_001 lines 22-33). -/
def initialSession : Session :=
  { messages := [{ content := greetingText, isBot := true }]
    isLoading := false
    conversationState := {}
    humanOperatorMode := false }

/- ### Message counting helpers -/

/-- Number of bot messages in a log. -/
def botCount (l : List Msg) : Nat := (l.filter (fun m => m.isBot)).length

/-- Number of user messages in a log. -/
def userCount (l : List Msg) : Nat := (l.filter (fun m => !m.isBot)).length

/-- Number of bot messages whose content is exactly the given text. -/
def textCount (l : List Msg) (t : String) : Nat :=
  (l.filter (fun m => m.isBot && m.content == t)).length

/- ### Widget frontend (src/unnamed/part_003, ChatWidget.handleSendMessage) -/

/-- One widget chat message (sender is the string role of the source). -/
structure WMsg where
  text : String
  sender : String
  isError : Bool := false
deriving DecidableEq

/-- Parsed reply body of the widget backend (field response may be absent). -/
structure WReply where
  response : Option String := none
deriving DecidableEq

/-- Mutable state of the widget chat relevant to a turn. -/
structure WidgetSession where
  messages : List WMsg := []
  loading : Bool := false
deriving DecidableEq

/-- Placeholder shown when a successful widget reply has a falsy response
field (src/unnamed/part_003 line 122). -/
def widgetFallbackText : String :=
  "I received your message but something went wrong with my response. Please try again."

/-- Widget error message (src/unnamed/part_003 lines 144-150). -/
def widgetErrorText : String :=
  "Sorry, I couldn\x27t process your message. Please try again later."

/-- The widget turn function handleSendMessage (src/unnamed/part_003
lines 69-163) restricted to string input: the text is trimmed and a falsy
result returns before any state change or fetch; otherwise the trimmed user
message is appended, one fetch is issued, and either the bot reply (with the
placeholder for a falsy response field) or the error message is appended. -/
def widgetHandleSendMessage (fetchResult : Except Unit WReply)
    (message : String) (st : WidgetSession) : WidgetSession × Nat :=
  let messageText := jsTrim message
  if messageText = "" then (st, 0)
  else
    let msgs1 := st.messages ++ [{ text := messageText, sender := "user" }]
    match fetchResult with
    | Except.ok data =>
      ({ messages :=
          msgs1 ++ [{ text := jsStrOr data.response widgetFallbackText,
                      sender := "bot" }]
         loading := false }, 1)
    | Except.error _ =>
      ({ messages :=
          msgs1 ++ [{ text := widgetErrorText, sender := "bot",
                      isError := true }]
         loading := false }, 1)

/- ### Concrete fixtures used by counterexamples and witnesses -/

/-- Session whose slot store is fully populated mid-dialogue. -/
def stFull : Session :=
  { initialSession with conversationState :=
      { expecting := some "date"
        selectedService := some "ServiceA"
        date := some "tomorrow"
        time := some "10 AM"
        issue := some "brake problem" } }

/-- Reply that carries only a response text (every other field absent). -/
def rPlain : ChatResponse := { response := "What time?" }

/-- Reply carrying the calendar-add signal and nothing else. -/
def rCal : ChatResponse :=
  { response := "Booked!", action := some "calendar_add" }

/-- Reply carrying both the calendar-add and the handoff signal. -/
def rBoth : ChatResponse :=
  { response := "Booked!", action := some "calendar_add", requires_human := true }

/-- Reply requiring a human operator. -/
def rHuman : ChatResponse := { response := "ok", requires_human := true }

/-- Reply of the booking scenario: time arrives together with the
calendar-add action. -/
def rBooking : ChatResponse :=
  { response := "Booked!", action := some "calendar_add", time := some "10 AM" }

/-- Reply whose date and time are present but empty and whose services list
is empty. -/
def rFalsy : ChatResponse :=
  { response := "noted", expecting := some "", date := some ""
    time := some "", services := [] }

/-- Session of the booking scenario: date already collected, time not yet. -/
def stBooking : Session :=
  { initialSession with conversationState :=
      { expecting := some "time"
        selectedService := some "ServiceA"
        date := some "tomorrow"
        issue := some "brake problem" } }

/-- Session already in human-operator mode. -/
def stOperator : Session := { initialSession with humanOperatorMode := true }

/-- The booking-scenario turn: submit 10 AM on stBooking with rBooking as the
successful reply. -/
def bookingTurn : StepResult :=
  handleSendMessage
    { geoAvailable := false, fetchResult := Except.ok rBooking }
    "10 AM" stBooking

/-- Session with a turn in flight. -/
def stLoading : Session := { initialSession with isLoading := true }

/- ### Claim theorems -/

/-- Claim C3 (confirmed): on every failed turn (network error, non-2xx or
malformed payload, all of which reach the catch block) exactly one bot
message with the fixed apologetic fallback text is appended, the slot store
and the operator flag are untouched, exactly one fetch was issued (no
retry), and loading ends cleared. -/
theorem C3_failure_turn (g : Bool) (content : String) (st : Session) :
    let r := handleSendMessage
      { geoAvailable := g, fetchResult := Except.error () } content st
    r.session.messages =
        st.messages ++ [{ content := content, isBot := false }] ++
          (if locationIntent content && g then
            [{ content := locationAckText, isBot := true }] else []) ++
          [{ content := errorText, isBot := true }]
      ∧ r.session.conversationState = st.conversationState
      ∧ r.session.humanOperatorMode = st.humanOperatorMode
      ∧ r.session.isLoading = false
      ∧ r.fetchCalls = 1
      ∧ textCount r.session.messages errorText
          = textCount st.messages errorText + 1 := by
  have hne : (locationAckText == errorText) = false := by decide
  by_cases hl : locationIntent content && g <;>
    simp [handleSendMessage, textCount, List.filter_append, hl, hne,
      List.append_assoc]

/-- Claim C4 (confirmed): while a turn is in flight (loading true), both a
free-text submission through ChatInput.handleSubmit and a quick-reply tap
are rejected: the session is unchanged and no fetch is issued. -/
theorem C4_in_flight_guard (env : TurnEnv) (content : String) (st : Session)
    (h : st.isLoading = true) :
    handleSubmit env content st = { session := st, fetchCalls := 0 }
      ∧ quickReplyTap env content st = { session := st, fetchCalls := 0 } := by
  simp [handleSubmit, quickReplyTap, h]

/-- Claim C4 witness: the guard fires on a concrete loading session. -/
theorem C4_in_flight_guard_witness :
    stLoading.isLoading = true
      ∧ (handleSubmit { geoAvailable := false, fetchResult := Except.ok rPlain }
          "hello" stLoading = { session := stLoading, fetchCalls := 0 }
        ∧ quickReplyTap { geoAvailable := false, fetchResult := Except.ok rPlain }
          "hello" stLoading = { session := stLoading, fetchCalls := 0 }) :=
  ⟨rfl, C4_in_flight_guard
    { geoAvailable := false, fetchResult := Except.ok rPlain }
    "hello" stLoading rfl⟩

/-- Claim C9 (confirmed): an input that is empty after trimming is a no-op in
both frontends: ChatInput.handleSubmit forwards nothing, and the widget
turn function returns before touching state, so the log does not grow, no
fetch is issued and loading is unchanged (in particular stays false). -/
theorem C9_empty_input_noop (env : TurnEnv) (content : String) (st : Session)
    (wfr : Except Unit WReply) (wst : WidgetSession)
    (h : jsTrim content = "") :
    handleSubmit env content st = { session := st, fetchCalls := 0 }
      ∧ widgetHandleSendMessage wfr content wst = (wst, 0) := by
  simp [handleSubmit, widgetHandleSendMessage, h]

/-- Claim C9 witness: a whitespace-only submission on concrete sessions. -/
theorem C9_empty_input_noop_witness :
    jsTrim "   " = ""
      ∧ (handleSubmit { geoAvailable := false, fetchResult := Except.error () }
          "   " initialSession = { session := initialSession, fetchCalls := 0 }
        ∧ widgetHandleSendMessage (Except.error ()) "   " {} = ({}, 0)) :=
  ⟨by decide, C9_empty_input_noop
    { geoAvailable := false, fetchResult := Except.error () }
    "   " initialSession (Except.error ()) {} (by decide)⟩

/-- Claim C1 counterexample: the claim as stated is false for the expecting
field.  With the prior state expecting some "date" and a successful reply
in which expecting is absent (and every other slot field absent too), the
merge reverts expecting to empty. -/
theorem C1_expecting_overwrite_cex :
    stFull.conversationState.expecting = some "date"
      ∧ rPlain.expecting = none
      ∧ (handleSendMessage { geoAvailable := false, fetchResult := Except.ok rPlain }
          "hello" stFull).session.conversationState.expecting = none := by
  decide

/-- Claim C1 (corrected): on every successful turn the sticky fields date,
time, selectedService and issue are indeed never reverted by a reply in
which they are absent, but the expecting field is unconditionally replaced
by the raw reply value, absent included. -/
theorem C1_sticky_merge_amended (g : Bool) (data : ChatResponse)
    (content : String) (st : Session)
    (hd : data.date = none) (ht : data.time = none) (hs : data.services = []) :
    let s := (handleSendMessage
      { geoAvailable := g, fetchResult := Except.ok data } content st).session
    s.conversationState.date = st.conversationState.date
      ∧ s.conversationState.time = st.conversationState.time
      ∧ s.conversationState.selectedService = st.conversationState.selectedService
      ∧ (st.conversationState.issue.isSome → s.conversationState.issue.isSome)
      ∧ s.conversationState.expecting = data.expecting := by
  refine ⟨?_, ?_, ?_, ?_, ?_⟩
  all_goals simp [handleSendMessage, mergeState, jsOr, jsTruthy, hd, ht, hs]
  all_goals split <;> simp

/-- Claim C1 witness: the amended statement holds on a concrete turn that
leaves every sticky field in place. -/
theorem C1_sticky_merge_amended_witness :
    rPlain.date = none ∧ rPlain.time = none ∧ rPlain.services = []
      ∧ (let s := (handleSendMessage
          { geoAvailable := false, fetchResult := Except.ok rPlain }
          "hello" stFull).session
        s.conversationState.date = stFull.conversationState.date
          ∧ s.conversationState.time = stFull.conversationState.time
          ∧ s.conversationState.selectedService
              = stFull.conversationState.selectedService
          ∧ (stFull.conversationState.issue.isSome →
              s.conversationState.issue.isSome)
          ∧ s.conversationState.expecting = rPlain.expecting) :=
  ⟨rfl, rfl, rfl,
    C1_sticky_merge_amended false rPlain "hello" stFull rfl rfl rfl⟩

/-- Claim C10 (confirmed): the merge distinguishes absence by truthiness, not
presence.  A reply whose date and time are present but empty and whose
services list is empty leaves date, time and selectedService unchanged,
and produces exactly the slot store that the absent-field reply would
produce, while expecting is replaced by the raw reply value. -/
theorem C10_falsy_merge (g : Bool) (data : ChatResponse) (content : String)
    (st : Session)
    (hd : data.date = some "") (ht : data.time = some "")
    (hs : data.services = []) :
    let s := (handleSendMessage
      { geoAvailable := g, fetchResult := Except.ok data } content st).session
    s.conversationState.date = st.conversationState.date
      ∧ s.conversationState.time = st.conversationState.time
      ∧ s.conversationState.selectedService = st.conversationState.selectedService
      ∧ s.conversationState = (handleSendMessage
          { geoAvailable := g
            fetchResult := Except.ok { data with date := none, time := none } }
          content st).session.conversationState
      ∧ s.conversationState.expecting = data.expecting := by
  refine ⟨?_, ?_, ?_, ?_, ?_⟩ <;>
    simp [handleSendMessage, mergeState, jsOr, jsTruthy, hd, ht, hs]

/-- Claim C10 witness: a concrete falsy reply against a populated store. -/
theorem C10_falsy_merge_witness :
    rFalsy.date = some "" ∧ rFalsy.time = some "" ∧ rFalsy.services = []
      ∧ (let s := (handleSendMessage
          { geoAvailable := false, fetchResult := Except.ok rFalsy }
          "hello" stFull).session
        s.conversationState.date = stFull.conversationState.date
          ∧ s.conversationState.time = stFull.conversationState.time
          ∧ s.conversationState.selectedService
              = stFull.conversationState.selectedService
          ∧ s.conversationState = (handleSendMessage
              { geoAvailable := false
                fetchResult := Except.ok { rFalsy with date := none, time := none } }
              "hello" stFull).session.conversationState
          ∧ s.conversationState.expecting = rFalsy.expecting) :=
  ⟨rfl, rfl, rfl,
    C10_falsy_merge false rFalsy "hello" stFull rfl rfl rfl⟩

/-- Claim C2 counterexample: the code holds no calendarConfirmed flag, so two
successful turns carrying the same calendar-add signal for the same
(date,time) pair append two confirmation messages, not one; the slot store
still holds the same pair before the second dispatch. -/
theorem C2_double_confirmation_cex :
    let s1 := (handleSendMessage
      { geoAvailable := false, fetchResult := Except.ok rCal } "book it" stFull).session
    let s2 := (handleSendMessage
      { geoAvailable := false, fetchResult := Except.ok rCal } "book it" s1).session
    textCount stFull.messages (calendarText "tomorrow" "10 AM") = 0
      ∧ s1.conversationState.date = some "tomorrow"
      ∧ s1.conversationState.time = some "10 AM"
      ∧ textCount s1.messages (calendarText "tomorrow" "10 AM") = 1
      ∧ textCount s2.messages (calendarText "tomorrow" "10 AM") = 2 := by
  decide

/-- Claim C2 (corrected): there is no calendarConfirmed flag and no
deduplication.  Every successful turn whose reply carries the calendar-add
action while the pre-merge slot store has truthy date and time appends a
fresh confirmation message naming that pair, so a repeated identical
dispatch appends a second confirmation. -/
theorem C2_confirmation_every_dispatch (g : Bool) (data : ChatResponse)
    (content : String) (st : Session)
    (ha : data.action = some "calendar_add")
    (hd : jsTruthy st.conversationState.date = true)
    (ht : jsTruthy st.conversationState.time = true) :
    (handleSendMessage { geoAvailable := g, fetchResult := Except.ok data }
        content st).session.messages
      = st.messages ++ [{ content := content, isBot := false }] ++
          (if locationIntent content && g then
            [{ content := locationAckText, isBot := true }] else []) ++
          [{ content := data.response, isBot := true },
           { content := calendarText (st.conversationState.date.getD "")
              (st.conversationState.time.getD ""), isBot := true }] ++
          (if data.requires_human then
            [{ content := handoffText, isBot := true }] else []) := by
  by_cases hl : locationIntent content && g <;>
    by_cases hh : data.requires_human <;>
      simp [handleSendMessage, ha, hd, ht, hl, hh, List.append_assoc]

/-- Claim C2 witness: a concrete dispatch appends its confirmation. -/
theorem C2_confirmation_every_dispatch_witness :
    rCal.action = some "calendar_add"
      ∧ jsTruthy stFull.conversationState.date = true
      ∧ jsTruthy stFull.conversationState.time = true
      ∧ (handleSendMessage
          { geoAvailable := false, fetchResult := Except.ok rCal }
          "book it" stFull).session.messages
        = stFull.messages ++ [{ content := "book it", isBot := false }] ++
            (if locationIntent "book it" && false then
              [{ content := locationAckText, isBot := true }] else []) ++
            [{ content := rCal.response, isBot := true },
             { content := calendarText (stFull.conversationState.date.getD "")
                (stFull.conversationState.time.getD ""), isBot := true }] ++
            (if rCal.requires_human then
              [{ content := handoffText, isBot := true }] else []) :=
  ⟨rfl, by decide, by decide,
    C2_confirmation_every_dispatch false rCal "book it" stFull rfl
      (by decide) (by decide)⟩

/-- Claim C5 (confirmed): when one successful turn fires both the
calendar-add and the handoff signal, the log gains the primary response,
then the calendar confirmation (1000 ms timer), then the handoff
announcement (1500 ms timer), in that fixed total order. -/
theorem C5_message_order (g : Bool) (data : ChatResponse) (content : String)
    (st : Session)
    (ha : data.action = some "calendar_add")
    (hd : jsTruthy st.conversationState.date = true)
    (ht : jsTruthy st.conversationState.time = true)
    (hh : data.requires_human = true) :
    (handleSendMessage { geoAvailable := g, fetchResult := Except.ok data }
        content st).session.messages
      = st.messages ++ [{ content := content, isBot := false }] ++
          (if locationIntent content && g then
            [{ content := locationAckText, isBot := true }] else []) ++
          [{ content := data.response, isBot := true },
           { content := calendarText (st.conversationState.date.getD "")
              (st.conversationState.time.getD ""), isBot := true },
           { content := handoffText, isBot := true }] := by
  by_cases hl : locationIntent content && g <;>
    simp [handleSendMessage, ha, hd, ht, hh, hl, List.append_assoc]

/-- Claim C5 witness: both signals on a concrete populated session. -/
theorem C5_message_order_witness :
    rBoth.action = some "calendar_add"
      ∧ jsTruthy stFull.conversationState.date = true
      ∧ jsTruthy stFull.conversationState.time = true
      ∧ rBoth.requires_human = true
      ∧ (handleSendMessage
          { geoAvailable := false, fetchResult := Except.ok rBoth }
          "yes" stFull).session.messages
        = stFull.messages ++ [{ content := "yes", isBot := false }] ++
            (if locationIntent "yes" && false then
              [{ content := locationAckText, isBot := true }] else []) ++
            [{ content := rBoth.response, isBot := true },
             { content := calendarText (stFull.conversationState.date.getD "")
                (stFull.conversationState.time.getD ""), isBot := true },
             { content := handoffText, isBot := true }] :=
  ⟨rfl, by decide, by decide, rfl,
    C5_message_order false rBoth "yes" stFull rfl (by decide) (by decide) rfl⟩

/-- Claim C6 counterexample: a successful turn whose input matches the
location heuristic appends, besides the primary response, a location
acknowledgement that is neither a calendar confirmation nor a handoff
announcement — two new bot entries with no side-effect signal fired. -/
theorem C6_location_ack_cex :
    let s := (handleSendMessage
      { geoAvailable := true
        fetchResult := Except.ok { response := "Here are nearby services." } }
      "near me" initialSession).session
    s.messages = initialSession.messages ++
        [{ content := "near me", isBot := false },
         { content := locationAckText, isBot := true },
         { content := "Here are nearby services.", isBot := true }]
      ∧ botCount s.messages = botCount initialSession.messages + 2
      ∧ textCount s.messages handoffText = 0 := by
  decide

/-- Claim C6 (corrected): every successful turn appends exactly one user
entry, and its new bot entries are exactly one primary response plus one
calendar confirmation when that signal fires, plus one handoff announcement
when that signal fires, plus — the amendment — one location acknowledgement
when the input matches the location heuristic and geolocation succeeds. -/
theorem C6_entry_counts (g : Bool) (data : ChatResponse) (content : String)
    (st : Session) :
    let s := (handleSendMessage
      { geoAvailable := g, fetchResult := Except.ok data } content st).session
    userCount s.messages = userCount st.messages + 1
      ∧ botCount s.messages = botCount st.messages + 1
          + (if locationIntent content && g then 1 else 0)
          + (if (data.action == some "calendar_add")
                && jsTruthy st.conversationState.date
                && jsTruthy st.conversationState.time then 1 else 0)
          + (if data.requires_human then 1 else 0) := by
  by_cases hl : locationIntent content && g <;>
    by_cases hc : (data.action == some "calendar_add")
        && jsTruthy st.conversationState.date
        && jsTruthy st.conversationState.time <;>
      by_cases hh : data.requires_human <;>
        simp [handleSendMessage, botCount, userCount, List.filter_append,
          hl, hc, hh]

/-- Claim C7 counterexample: the handoff branch carries no check of the
current operator mode.  On a session whose humanOperatorMode is already
true, a reply requiring a human still appends an announcement, and a second
identical turn appends a second one. -/
theorem C7_second_announcement_cex :
    let s1 := (handleSendMessage
      { geoAvailable := false, fetchResult := Except.ok rHuman }
      "thanks" stOperator).session
    let s2 := (handleSendMessage
      { geoAvailable := false, fetchResult := Except.ok rHuman }
      "thanks" s1).session
    stOperator.humanOperatorMode = true
      ∧ textCount s1.messages handoffText = 1
      ∧ textCount s2.messages handoffText = 2 := by
  decide

/-- Claim C7 (corrected): on every successful turn whose reply requires a
human operator the handoff fires unconditionally — humanOperatorMode is set
(or kept) true and one announcement is appended after the primary response
and any calendar confirmation — with no guard on the current mode, so a
repeated signal appends a repeated announcement. -/
theorem C7_handoff_not_guarded (g : Bool) (data : ChatResponse)
    (content : String) (st : Session)
    (hh : data.requires_human = true) :
    let r := handleSendMessage
      { geoAvailable := g, fetchResult := Except.ok data } content st
    r.session.humanOperatorMode = true
      ∧ r.session.messages
        = st.messages ++ [{ content := content, isBot := false }] ++
            (if locationIntent content && g then
              [{ content := locationAckText, isBot := true }] else []) ++
            [{ content := data.response, isBot := true }] ++
            (if (data.action == some "calendar_add")
                && jsTruthy st.conversationState.date
                && jsTruthy st.conversationState.time then
              [{ content := calendarText (st.conversationState.date.getD "")
                  (st.conversationState.time.getD ""), isBot := true }]
            else []) ++
            [{ content := handoffText, isBot := true }] := by
  by_cases hl : locationIntent content && g <;>
    by_cases hc : (data.action == some "calendar_add")
        && jsTruthy st.conversationState.date
        && jsTruthy st.conversationState.time <;>
      simp [handleSendMessage, hh, hl, hc, List.append_assoc]

/-- Claim C7 witness: the unguarded handoff on a session already in operator
mode. -/
theorem C7_handoff_not_guarded_witness :
    rHuman.requires_human = true
      ∧ (let r := handleSendMessage
          { geoAvailable := false, fetchResult := Except.ok rHuman }
          "thanks" stOperator
        r.session.humanOperatorMode = true
          ∧ r.session.messages
            = stOperator.messages ++ [{ content := "thanks", isBot := false }] ++
                (if locationIntent "thanks" && false then
                  [{ content := locationAckText, isBot := true }] else []) ++
                [{ content := rHuman.response, isBot := true }] ++
                (if (rHuman.action == some "calendar_add")
                    && jsTruthy stOperator.conversationState.date
                    && jsTruthy stOperator.conversationState.time then
                  [{ content := calendarText
                      (stOperator.conversationState.date.getD "")
                      (stOperator.conversationState.time.getD ""), isBot := true }]
                else []) ++
                [{ content := handoffText, isBot := true }]) :=
  ⟨rfl, C7_handoff_not_guarded false rHuman "thanks" stOperator rfl⟩

/-- Claim C8 (code bug): in the booking scenario the slot store already holds
date tomorrow, the user submits 10 AM and the reply carries the calendar-add
action together with time 10 AM.  The calendar branch reads the stale
pre-merge closure state, whose time field is still absent, so only the
single bot message Booked! is appended, no calendar confirmation appears,
and no calendarConfirmed flag exists — even though the merged store ends
with both date tomorrow and time 10 AM. -/
theorem C8_stale_state_scenario :
    stBooking.conversationState.date = some "tomorrow"
      ∧ rBooking.action = some "calendar_add"
      ∧ rBooking.time = some "10 AM"
      ∧ bookingTurn.session.messages = stBooking.messages ++
          [{ content := "10 AM", isBot := false },
           { content := "Booked!", isBot := true }]
      ∧ botCount bookingTurn.session.messages = botCount stBooking.messages + 1
      ∧ textCount bookingTurn.session.messages (calendarText "tomorrow" "10 AM") = 0
      ∧ bookingTurn.session.conversationState.date = some "tomorrow"
      ∧ bookingTurn.session.conversationState.time = some "10 AM" := by
  decide
